import Mathlib

set_option maxRecDepth 8192

/-!
Shallow embedding of the order-data aggregation program (src/appStreamlit.py)
and proofs about the specified behaviour of its core functions.

Modelling conventions:
* A pandas/Python cell value is a PVal: vNone models both Python None and
  float NaN (the two are conflated; every use in the source first checks
  pd.isna, which is true for both), vNum models a finite numeric value as a
  rational, vStr a string.
* Machine floats are modelled as exact rationals; decimal literals with an
  optional exponent are in scope (underscores and locale corners of Python
  float parsing are mapped to parse failure).  The overflow of float() to
  an infinity at the double bound 2^1024 - 2^970 is modelled exactly where
  the claims depend on it (clean_dept); the rounding of an in-range
  literal to its nearest binary double is not modelled.
* Fallible Python code is modelled with Option: a function returning
  Option X yields none exactly when the Python code raises an uncaught
  exception at that point.
-/

/-- A Python/pandas cell value.  vNone conflates None and NaN. -/
inductive PVal where
  | vNone : PVal
  | vNum (q : ℚ) : PVal
  | vStr (s : String) : PVal
deriving DecidableEq

/-- Python str() of a cell value.  str(NaN) = "nan" (the None spelling
"None" is conflated; no claim stringifies a None).  Floats are rendered
with a trailing ".0" when integral; non-integral floats are not rendered
faithfully (no claim stringifies one). -/
def pyStr (v : PVal) : String :=
  match v with
  | .vNone => "nan"
  | .vStr s => s
  | .vNum q => if q.den = 1 then toString q.num ++ ".0" else toString q.num ++ "?"

/-- Python str.strip() on a character list. -/
def pyStrip (l : List Char) : List Char :=
  ((l.dropWhile Char.isWhitespace).reverse.dropWhile Char.isWhitespace).reverse

/-- Python str.lower() (ASCII; non-ASCII characters are untouched). -/
def pyLower (l : List Char) : List Char :=
  l.map Char.toLower

/-- Numeric value of a decimal digit character. -/
def digitVal (c : Char) : ℕ :=
  c.toNat - 48

/-- Value of a list of decimal digit characters, most significant first. -/
def digitsToNat (l : List Char) : ℕ :=
  l.foldl (fun a c => 10 * a + digitVal c) 0

/-- Optional exponent suffix of a float literal: the empty rest means
exponent 0; otherwise e or E, an optional sign, and at least one
digit. -/
def parseExpOpt : List Char → Option ℤ
  | [] => some 0
  | c :: rest =>
    if c = 'e' ∨ c = 'E' then
      match rest with
      | '+' :: ds => if ds ≠ [] ∧ ds.all Char.isDigit then some (digitsToNat ds : ℤ) else none
      | '-' :: ds =>
        if ds ≠ [] ∧ ds.all Char.isDigit then some (-(digitsToNat ds : ℤ)) else none
      | ds => if ds ≠ [] ∧ ds.all Char.isDigit then some (digitsToNat ds : ℤ) else none
    else none

/-- Unsigned float literal: digits, optionally a dot and further digits,
optionally an exponent ("12", "12.5", ".5", "12.", "1e400", "2.5E-3").
Returns its exact rational value; the rounding of that value to the
nearest binary double is not modelled (no claim distinguishes a literal
from its rounded double below the overflow bound). -/
def parseUDec (l : List Char) : Option ℚ :=
  let ip := l.takeWhile Char.isDigit
  let rest := l.dropWhile Char.isDigit
  match rest with
  | [] => if ip = [] then none else some (digitsToNat ip : ℚ)
  | '.' :: rest2 =>
    let fp := rest2.takeWhile Char.isDigit
    let rest3 := rest2.dropWhile Char.isDigit
    if ip = [] ∧ fp = [] then none
    else
      (parseExpOpt rest3).map
        (fun e => ((digitsToNat (ip ++ fp) : ℚ) / (10 : ℚ) ^ fp.length) * (10 : ℚ) ^ e)
  | rest1 =>
    if ip = [] then none
    else (parseExpOpt rest1).map (fun e => (digitsToNat ip : ℚ) * (10 : ℚ) ^ e)

/-- Signed float literal. -/
def parseDec (l : List Char) : Option ℚ :=
  match l with
  | '-' :: rest => (parseUDec rest).map (fun q => -q)
  | '+' :: rest => parseUDec rest
  | _ => parseUDec l

/-- pd.to_numeric(x, errors="coerce"): numbers pass through, numeric
strings are parsed, anything else (including None/NaN) becomes NaN. -/
def toNumeric (v : PVal) : Option ℚ :=
  match v with
  | .vNone => none
  | .vNum q => some q
  | .vStr s => parseDec (pyStrip s.data)

/-- Decimal digit characters of n, least significant first (fuel-based to
keep the recursion structural). -/
def natDigitsAux : ℕ → ℕ → List Char
  | 0, _ => []
  | fuel + 1, n => if n = 0 then [] else Char.ofNat (n % 10 + 48) :: natDigitsAux fuel (n / 10)

/-- Decimal rendering of a natural number (Python str(int) for n >= 0). -/
def natStr (n : ℕ) : String :=
  if n = 0 then "0" else String.mk (natDigitsAux (n + 1) n).reverse

/-- Decimal rendering of an integer (Python str(int)). -/
def intStr (z : ℤ) : String :=
  if z < 0 then "-" ++ natStr z.natAbs else natStr z.natAbs

/-- Python str.zfill(w): left-pad with zeros to width w, after any
leading sign character. -/
def zfill (w : ℕ) (s : String) : String :=
  if w ≤ s.length then s
  else
    match s.data with
    | [] => String.mk (List.replicate (w - s.length) '0') ++ s
    | c :: rest =>
      if c = '-' ∨ c = '+' then
        String.mk [c] ++ String.mk (List.replicate (w - s.length) '0') ++ String.mk rest
      else String.mk (List.replicate (w - s.length) '0') ++ s

/-- Python int() applied to a rational: truncation toward zero. -/
def ratTrunc (q : ℚ) : ℤ :=
  if q.num < 0 then -((q.num.natAbs / q.den : ℕ) : ℤ) else ((q.num.natAbs / q.den : ℕ) : ℤ)

/-- Strings accepted by Python float() as an infinity. -/
def isInfStr (l : List Char) : Bool :=
  let t := pyLower (pyStrip l)
  t = "inf".data ∨ t = "+inf".data ∨ t = "-inf".data ∨
    t = "infinity".data ∨ t = "+infinity".data ∨ t = "-infinity".data

/-- Models int(float(x)) for the caught-failure cases of clean_dept:
some q when the coercion reaches a numeric value, none when a
ValueError/TypeError occurs (unparseable string, NaN, None).  The
uncaught OverflowError cases — infinity spellings, and values at or
beyond the double overflow bound — are handled separately in
clean_dept. -/
def floatCoerce (v : PVal) : Option ℚ :=
  match v with
  | .vNone => none
  | .vNum q => some q
  | .vStr s => parseDec (pyStrip s.data)

/-- The IEEE-754 double overflow threshold 2^1024 - 2^970, written in
factored form (2^54 - 1) * 2^970: a decimal literal whose magnitude
reaches this bound rounds (round-to-nearest-even) past DBL_MAX, so
Python float() returns an infinity; likewise float() of an integer of
at least this magnitude raises OverflowError directly.  In both cases
the int() call of clean_dept raises an uncaught OverflowError. -/
def dblOverflowNat : ℕ :=
  18014398509481983 * 2 ^ 970

/-- Whether a rational lies at or beyond the double overflow threshold
in magnitude (compared exactly via numerator and denominator). -/
def overflowsFloat (q : ℚ) : Bool :=
  dblOverflowNat * q.den ≤ q.num.natAbs

/-- Rendering step of clean_dept once coercion has been attempted. -/
def renderDept (o : Option ℚ) : String :=
  match o with
  | some q => zfill 3 (intStr (ratTrunc q))
  | none => "000"

/-- clean_dept (source lines 38-42): str(int(float(x))).zfill(3) with
ValueError/TypeError mapped to "000".  Returns none exactly when Python
raises an uncaught OverflowError: on an infinity spelling, or on any
numeric value whose magnitude reaches the double overflow bound (e.g.
the literal "1e400" or a 400-digit string, where float() yields inf and
int(inf) raises). -/
def clean_dept (v : PVal) : Option String :=
  match v with
  | .vNone => some "000"
  | .vNum q => if overflowsFloat q then none else some (renderDept (some q))
  | .vStr s =>
    if isInfStr s.data then none
    else
      match parseDec (pyStrip s.data) with
      | some q => if overflowsFloat q then none else some (renderDept (some q))
      | none => some "000"

/-- Drop a trailing ".0" (the re.sub r"\.0$" step of clean_jan). -/
def dropDotZero (l : List Char) : List Char :=
  match l.reverse with
  | '0' :: '.' :: rest => rest.reverse
  | _ => l

/-- clean_jan (source lines 32-36): str(x).strip(), lstrip("'"),
then strip one trailing ".0". -/
def clean_jan (v : PVal) : String :=
  let s := pyStrip (pyStr v).data
  String.mk (dropDotZero (s.dropWhile (fun c => c = Char.ofNat 39)))

/-- A calendar date, as produced by Python datetime.date. -/
structure Date where
  y : ℕ
  m : ℕ
  d : ℕ
deriving DecidableEq

/-- Gregorian leap-year rule (Python datetime is proleptic Gregorian). -/
def isLeap (y : ℕ) : Bool :=
  y % 4 = 0 ∧ (y % 100 ≠ 0 ∨ y % 400 = 0)

/-- Days in a month. -/
def daysInMonth (y m : ℕ) : ℕ :=
  if m = 2 then (if isLeap y then 29 else 28)
  else if m = 4 ∨ m = 6 ∨ m = 9 ∨ m = 11 then 30
  else 31

/-- Validity of (y, m, d) for datetime.date (year range 1..9999). -/
def validYMD (y m d : ℕ) : Bool :=
  1 ≤ y ∧ y ≤ 9999 ∧ 1 ≤ m ∧ m ≤ 12 ∧ 1 ≤ d ∧ d ≤ daysInMonth y m

/-- datetime.date(y, m, d) with ValueError as none. -/
def mkDate? (y m d : ℕ) : Option Date :=
  if validYMD y m d then some ⟨y, m, d⟩ else none

/-- Exactly eight digit characters, split as YYYY, MM, DD. -/
def read8 (l : List Char) : Option (ℕ × ℕ × ℕ) :=
  match l with
  | [a, b, c, d, e, f, g, h] =>
    if [a, b, c, d, e, f, g, h].all Char.isDigit then
      some (digitsToNat [a, b, c, d], digitsToNat [e, f], digitsToNat [g, h])
    else none
  | _ => none

/-- Day part of the prefix regex (\d{1,2})/(\d{1,2}): one or two digits,
greedy, trailing characters ignored. -/
def matchDayMD : List Char → Option ℕ
  | [] => none
  | [c] => if c.isDigit then some (digitVal c) else none
  | c :: d :: _ =>
    if c.isDigit then some (if d.isDigit then 10 * digitVal c + digitVal d else digitVal c)
    else none

/-- re.match(r"(\d{1,2})/(\d{1,2})", s): a PREFIX match, so any trailing
text after the day digits is ignored. -/
def matchMD : List Char → Option (ℕ × ℕ)
  | a :: '/' :: rest =>
    if a.isDigit then (matchDayMD rest).map (fun d => (digitVal a, d)) else none
  | a :: b :: '/' :: rest =>
    if a.isDigit ∧ b.isDigit then
      (matchDayMD rest).map (fun d => (10 * digitVal a + digitVal b, d))
    else none
  | _ => none

/-- Split a character list on the slash character. -/
def splitSlash : List Char → List (List Char)
  | [] => [[]]
  | c :: rest =>
    match splitSlash rest with
    | [] => [[c]]
    | h :: t => if c = '/' then [] :: h :: t else (c :: h) :: t

/-- Nonempty all-digit token of bounded length. -/
def digitTok (maxLen : ℕ) (l : List Char) : Bool :=
  l ≠ [] ∧ l.length ≤ maxLen ∧ l.all Char.isDigit

/-- ISO token YYYY-MM-DD. -/
def readISO (l : List Char) : Option (ℕ × ℕ × ℕ) :=
  match l with
  | [a, b, c, d, '-', e, f, '-', g, h] =>
    if [a, b, c, d, e, f, g, h].all Char.isDigit then
      some (digitsToNat [a, b, c, d], digitsToNat [e, f], digitsToNat [g, h])
    else none
  | _ => none

/-- dateutil parserinfo.convertyear for a bare two-digit year token:
add the current century (taken from today's year), then shift by a
century if the result lands 50 or more years away from today. -/
def convertYear (todayYear y : ℕ) : ℕ :=
  let y2 := y + (todayYear / 100) * 100
  if y2 + 50 ≤ todayYear then y2 + 100
  else if todayYear + 50 ≤ y2 then y2 - 100
  else y2

/-- Model of pd.to_datetime(s) under errors="raise" followed by the bare
except of parse_date_str: none means the parse raised.  Scope of the
model: 8-digit YYYYMMDD tokens, ISO YYYY-MM-DD, US-order M/D/YYYY (the
delimited-date fast path; the day-first swap heuristic for a first
number above 12 and two-digit years in that position are conservatively
mapped to failure), and two-token slash strings, which pandas hands to
dateutil with the default datetime(1, 1, 1):
* when neither token exceeds 31 no year is present, so the resolved
  month/day lands in year 1 and ALWAYS raises (either an invalid date
  for year 1 or a Timestamp out of the nanosecond bounds) — none;
* a token of 32..99 is read as a two-digit year (converted relative to
  today's year), the other token giving the month — or the day, when it
  cannot be a month — with the missing component defaulting to 1 from
  the default datetime.
All other inputs are conservatively mapped to parse failure; no claim
exercises them. -/
def pdToDatetime (todayYear : ℕ) (l : List Char) : Option Date :=
  match read8 l with
  | some (y, m, d) => mkDate? y m d
  | none =>
    match readISO l with
    | some (y, m, d) => mkDate? y m d
    | none =>
      match splitSlash l with
      | [x, z] =>
        if digitTok 2 x ∧ digitTok 2 z then
          let a := digitsToNat x
          let b := digitsToNat z
          if a ≤ 31 ∧ b ≤ 31 then none
          else if 31 < a ∧ b ≤ 31 then
            if b ≤ 12 then mkDate? (convertYear todayYear a) b 1
            else mkDate? (convertYear todayYear a) 1 b
          else if 31 < b ∧ a ≤ 31 then
            if a ≤ 12 then mkDate? (convertYear todayYear b) a 1
            else mkDate? (convertYear todayYear b) 1 a
          else none
        else none
      | [x, z, w] =>
        if digitTok 2 x ∧ digitTok 2 z ∧ digitTok 4 w ∧ w.length = 4 then
          mkDate? (digitsToNat w) (digitsToNat x) (digitsToNat z)
        else none
      | _ => none

/-- parse_date_str (source lines 44-63).  todayYear models
datetime.date.today().year (it also seeds the year default of the
general parser).  Strategy order: strip and reject empty/"nan"; exact
8-digit YYYYMMDD; M/D prefix match completed with the default year;
pd.to_datetime as last resort; none when everything fails. -/
def parse_date_str (todayYear : ℕ) (v : PVal) (default_year : Option ℕ) : Option Date :=
  let dy := default_year.getD todayYear
  let l := pyStrip (pyStr v).data
  if l = [] ∨ pyLower l = "nan".data then none
  else
    match (read8 l).bind (fun t => mkDate? t.1 t.2.1 t.2.2) with
    | some dt => some dt
    | none =>
      match matchMD l with
      | some (m, d) =>
        match mkDate? dy m d with
        | some dt => some dt
        | none => pdToDatetime todayYear l
      | none => pdToDatetime todayYear l

/-- Apply a fallible function to each element in order, propagating
failure (an Option-valued Python loop whose body may raise). -/
def optionTraverse {α β : Type} (f : α → Option β) : List α → Option (List β)
  | [] => some []
  | a :: l =>
    match f a, optionTraverse f l with
    | some b, some bs => some (b :: bs)
    | _, _ => none

/-- A canonical record (the unified long-form row both parsers emit).
Option fields model nullable cells: none is NaN/NaT. -/
structure Record where
  date : Option Date
  dept : String
  jan : String
  name : PVal
  qty : Option ℚ
  price : Option ℚ
  promo : String
deriving DecidableEq

/-- A single-header-row table as read by pandas: column names plus rows of
cells, positionally aligned with the column list. -/
structure Table where
  cols : List String
  rows : List (List PVal)

/-- Cell of a row under a named column (first matching column; a missing
column reads as NaN, which the callers below rule out up front). -/
def getCell (cols : List String) (row : List PVal) (c : String) : PVal :=
  match cols.findIdx? (fun x => x = c) with
  | some i => row.getD i .vNone
  | none => .vNone

/-- Promotion normalisation of the transactional parser:
fillna("").astype(str).replace(["nan", "None"], ""). -/
def promoClean (v : PVal) : String :=
  match v with
  | .vNone => ""
  | _ =>
    let s := pyStr v
    if s = "nan" ∨ s = "None" then "" else s

/-- One row of the transactional layout turned into a canonical record
(source lines 80-88); none when clean_dept raises. -/
def format1Row (todayYear : ℕ) (cols : List String) (row : List PVal) : Option Record :=
  (clean_dept (getCell cols row "部門")).map (fun dp =>
    { date := parse_date_str todayYear (getCell cols row "納品日") none
      dept := dp
      jan := clean_jan (getCell cols row "商品コード")
      name := getCell cols row "商品名"
      qty := some ((toNumeric (getCell cols row "発注数量")).getD 0)
      price := some ((toNumeric (getCell cols row "売単価")).getD 0)
      promo := promoClean (getCell cols row "発注区分") })

/-- process_format_1 (source lines 69-90).  Returns some [] when any of
the three required columns is missing (the explicit contract check);
none models an uncaught exception (KeyError on a missing optional
column, or clean_dept raising); otherwise the per-row records with
date-less rows dropped. -/
def process_format_1 (todayYear : ℕ) (t : Table) : Option (List Record) :=
  if ¬ ("納品日" ∈ t.cols ∧ "部門" ∈ t.cols ∧ "商品コード" ∈ t.cols) then some []
  else if ¬ ("商品名" ∈ t.cols ∧ "発注数量" ∈ t.cols ∧ "売単価" ∈ t.cols ∧ "発注区分" ∈ t.cols) then
    none
  else
    (optionTraverse (format1Row todayYear t.cols) t.rows).map
      (fun rs => rs.filter (fun r => r.date.isSome))

/-- A two-header-row table as read by pandas with header=[i, i+1]: the
columns are (top, bottom) string pairs; unnamed header cells arrive as
"Unnamed: k_level_l" placeholder strings. -/
structure MTable where
  cols : List (String × String)
  rows : List (List PVal)

/-- Contiguous-sublist test on character lists. -/
def listInfixOf (pat : List Char) : List Char → Bool
  | [] => pat.isEmpty
  | c :: rest => pat.isPrefixOf (c :: rest) || listInfixOf pat rest

/-- Substring test on strings (the Python "x in s" operator). -/
def strContains (hay pat : String) : Bool :=
  listInfixOf pat.data hay.data

/-- Forward fill of the sparse top header row (source lines 95-104):
carry the last non-placeholder, non-weekly-total top label into
placeholder positions.  The accumulator is the running last_top, which
starts as Python None. -/
def ffillCols (lastTop : Option String) : List (String × String) → List (Option String × String)
  | [] => []
  | (t, b) :: rest =>
    let lt := if ¬ strContains t "Unnamed" ∧ ¬ strContains t "週合計" then some t else lastTop
    let ft : Option String := if strContains t "Unnamed" then lt else some t
    (ft, b) :: ffillCols lt rest

/-- Date-group labels (source lines 111-117): tops of columns whose
bottom label is a real field name, excluding None and weekly totals,
deduplicated keeping first occurrences. -/
def dateColsOf (nc : List (Option String × String)) : List String :=
  (nc.foldl
    (fun acc p =>
      match p with
      | (some t, b) =>
        if ¬ strContains b "Unnamed" ∧ ¬ strContains t "週合計" ∧ ¬ t ∈ acc then acc ++ [t]
        else acc
      | (none, _) => acc)
    [])

/-- Fixed (identity) columns: those whose bottom label is a placeholder. -/
def fixedColsOf (nc : List (Option String × String)) : List (Option String × String) :=
  nc.filter (fun p => strContains p.2 "Unnamed")

/-- row[key] on the matrix layout: positional lookup through the
forward-filled column list. -/
def rowGet (nc : List (Option String × String)) (row : List PVal)
    (key : Option String × String) : PVal :=
  match nc.findIdx? (fun x => x = key) with
  | some i => row.getD i .vNone
  | none => .vNone

/-- base_info.get(name, dflt): the per-row identity dict keyed by the top
label of each fixed column.  Later duplicate keys overwrite earlier ones,
hence the reversed search. -/
def baseGet (base : List (Option String × PVal)) (nm : String) (dflt : PVal) : PVal :=
  match base.reverse.find? (fun p => p.1 = some nm) with
  | some p => p.2
  | none => dflt

/-- base_info.get("JANコード") with no default: none when the key is absent. -/
def baseJan (base : List (Option String × PVal)) : Option PVal :=
  (base.reverse.find? (fun p => p.1 = some "JANコード")).map (fun p => p.2)

/-- Inner loop body of the matrix parser for one (row, date-group) pair
(source lines 129-148).  Result: none = uncaught exception (clean_dept
raising), some none = the pair is skipped, some (some r) = one canonical
record emitted. -/
def emitCell (todayYear : ℕ) (nc : List (Option String × String)) (row : List PVal)
    (base : List (Option String × PVal)) (janV : PVal) (d : String) :
    Option (Option Record) :=
  if d = "" ∨ d = "nan" then some none
  else
    match toNumeric (rowGet nc row (some d, "数量")) with
    | none => some none
    | some q =>
      if q = 0 then some none
      else
        match clean_dept (baseGet base "部門" (.vStr "000")) with
        | none => none
        | some dp =>
          let prc := toNumeric (rowGet nc row (some d, "売価"))
          let pv := rowGet nc row (some d, "販促")
          some (some
            { date := parse_date_str todayYear (.vStr d) none
              dept := dp
              jan := clean_jan janV
              name := baseGet base "商品名" (.vStr "")
              qty := some q
              price := prc
              promo := if pv = .vNone then "" else pyStr pv })

/-- Records emitted for one row of the matrix layout (source lines
120-148): rows with a missing JAN value are skipped entirely. -/
def matrixRow (todayYear : ℕ) (nc : List (Option String × String)) (dcs : List String)
    (fixed : List (Option String × String)) (row : List PVal) : Option (List Record) :=
  let base := fixed.map (fun p => (p.1, rowGet nc row p))
  match baseJan base with
  | none => some []
  | some jv =>
    if jv = .vNone then some []
    else (optionTraverse (emitCell todayYear nc row base jv) dcs).map List.reduceOption

/-- process_format_2_from_df (source lines 92-150): forward-fill the top
header, classify columns, then emit one record per surviving
(row, date-group) pair. -/
def process_format_2_from_df (todayYear : ℕ) (t : MTable) : Option (List Record) :=
  let nc := ffillCols none t.cols
  let dcs := dateColsOf nc
  let fixed := fixedColsOf nc
  (optionTraverse (matrixRow todayYear nc dcs fixed) t.rows).map List.flatten

/-- Per-record amount, master_df[COL_AMOUNT] = quantity * unit_price
(source line 355): NaN when the price is NaN. -/
def recAmount (r : Record) : Option ℚ :=
  r.qty.bind (fun q => r.price.map (fun p => q * p))

/-- pandas groupby "first": the first non-null value of the column within
the group (NaN entries are skipped; all-null gives NaN). -/
def firstNonNull (l : List PVal) : PVal :=
  match l.find? (fun v => v ≠ .vNone) with
  | some v => v
  | none => .vNone

/-- One step of a NaN-skipping running maximum. -/
def maxStep (acc : Option ℚ) (o : Option ℚ) : Option ℚ :=
  match o with
  | none => acc
  | some p =>
    match acc with
    | none => some p
    | some m => some (max m p)

/-- pandas groupby "max" with NaN skipped; all-null gives NaN. -/
def maxNonNull (l : List (Option ℚ)) : Option ℚ :=
  l.foldl maxStep none

/-- pandas sum with NaN skipped (an all-null or empty column sums to 0). -/
def sumNonNull (l : List (Option ℚ)) : ℚ :=
  (l.map (fun o => o.getD 0)).sum

/-- One row of the summary aggregation (source lines 445-448). -/
structure AggRow where
  jan : String
  dept : String
  name : PVal
  price : Option ℚ
  totalQty : ℚ
  totalAmount : ℚ
  promo : String
deriving DecidableEq

/-- The aggregate of one jan-group (grp is the group in original record
order; it is always nonempty). -/
def aggGroup (j : String) (grp : List Record) : AggRow :=
  { jan := j
    dept := (grp.head?.map Record.dept).getD ""
    name := firstNonNull (grp.map Record.name)
    price := maxNonNull (grp.map Record.price)
    totalQty := sumNonNull (grp.map Record.qty)
    totalAmount := sumNonNull (grp.map recAmount)
    promo := (grp.head?.map Record.promo).getD "" }

/-- Descending order on total quantity (sort_values ascending=False). -/
def aggGe (a b : AggRow) : Prop :=
  b.totalQty ≤ a.totalQty

instance : DecidableRel aggGe := fun a b => inferInstanceAs (Decidable (b.totalQty ≤ a.totalQty))

instance : IsTotal AggRow aggGe :=
  ⟨fun a b => le_total b.totalQty a.totalQty⟩

instance : IsTrans AggRow aggGe :=
  ⟨fun _ _ _ h1 h2 => le_trans h2 h1⟩

/-- The summary aggregation agg_view (source lines 445-448): group the
records by jan, aggregate each group, and order by descending total
quantity.  (pandas sorts the group keys ascending; no downstream
behaviour depends on that intermediate order, since the rows are
re-sorted by quantity, so the groups are enumerated here in
first-occurrence order.) -/
def aggView (rs : List Record) : List AggRow :=
  List.insertionSort aggGe
    (((rs.map Record.jan).dedup).map
      (fun j => aggGroup j (rs.filter (fun r => r.jan = j))))

/-- Records that survive the pivot_table dropna: rows with a NaN value in
any of the five index levels or in the date column key are silently
dropped by pandas groupby (source lines 239-242). -/
def pivotSurvivors (rs : List Record) : List Record :=
  rs.filter (fun r => r.date.isSome ∧ r.price.isSome ∧ r.name ≠ .vNone)

/-- Ascending order on dates. -/
def dateLe (a b : Date) : Prop :=
  a.y < b.y ∨ (a.y = b.y ∧ (a.m < b.m ∨ (a.m = b.m ∧ a.d ≤ b.d)))

instance : DecidableRel dateLe := fun a b =>
  inferInstanceAs (Decidable (a.y < b.y ∨ (a.y = b.y ∧ (a.m < b.m ∨ (a.m = b.m ∧ a.d ≤ b.d)))))

instance : IsTotal Date dateLe :=
  ⟨fun a b => by unfold dateLe; omega⟩

instance : IsTrans Date dateLe :=
  ⟨fun a b c h1 h2 => by unfold dateLe at *; omega⟩

/-- The date columns of the pivot (source lines 239-248): exactly the
dates of the surviving records, sorted ascending. -/
def pivotDates (rs : List Record) : List Date :=
  List.insertionSort dateLe ((pivotSurvivors rs).filterMap Record.date).dedup

/-- The five-level pivot grouping key. -/
def pivotKey (r : Record) : String × String × PVal × ℚ × String :=
  (r.dept, r.jan, r.name, r.price.getD 0, r.promo)

/-- One row of the pivot export. -/
structure PivotRow where
  dept : String
  jan : String
  name : PVal
  price : ℚ
  promo : String
  cells : List (Date × ℚ)
  totalQty : ℚ
  totalAmount : ℚ
deriving DecidableEq

/-- The pivot rows of create_matrix_csv (source lines 239-253): group the
surviving records by the five-level key, sum quantities per date
(fill_value 0), then append the row-sum quantity column and the amount
column computed as that row sum times the group price.  (pandas sorts
the row index; the claims are row-order-independent, so the groups are
enumerated in first-occurrence order.) -/
def pivotRows (rs : List Record) : List PivotRow :=
  let surv := pivotSurvivors rs
  (surv.map pivotKey).dedup.map
    (fun k =>
      let grp := surv.filter (fun r => pivotKey r = k)
      let cells := (pivotDates rs).map
        (fun d => (d, sumNonNull ((grp.filter (fun r => r.date = some d)).map Record.qty)))
      let tq := (cells.map Prod.snd).sum
      { dept := k.1, jan := k.2.1, name := k.2.2.1, price := k.2.2.2.1, promo := k.2.2.2.2
        cells := cells
        totalQty := tq
        totalAmount := tq * k.2.2.2.1 })

/-- Zero-pad a natural number to two digits. -/
def pad2 (n : ℕ) : String :=
  zfill 2 (natStr n)

/-- Zero-pad a natural number to four digits. -/
def pad4 (n : ℕ) : String :=
  zfill 4 (natStr n)

/-- strftime("%Y/%m/%d"). -/
def fmtDate (d : Date) : String :=
  pad4 d.y ++ "/" ++ pad2 d.m ++ "/" ++ pad2 d.d

/-- The CSV header of create_matrix_csv (source lines 236-266): empty
input produces no output at all; otherwise the fixed identity columns,
the date columns present in the pivot, and the total/promotion tail. -/
def create_matrix_csv_header (rs : List Record) : List String :=
  if rs = [] then []
  else
    ["部門", "JAN", "商品名", "単価"] ++ (pivotDates rs).map fmtDate ++
      ["合計数量", "合計金額", "販促"]

/-- The JAN column cells of the pivot CSV are prefixed with an apostrophe
to force spreadsheet text mode (source line 267). -/
def pivotJanCells (rs : List Record) : List String :=
  (pivotRows rs).map (fun p => (Char.ofNat 39).toString ++ p.jan)

/-- Expansion of one character under html.escape (quote=True). -/
def escChar (c : Char) : List Char :=
  if c = '&' then "&amp;".data
  else if c = '<' then "&lt;".data
  else if c = '>' then "&gt;".data
  else if c = Char.ofNat 34 then "&quot;".data
  else if c = Char.ofNat 39 then "&#x27;".data
  else [c]

/-- html.escape(s, quote=True). -/
def htmlEscape (s : String) : String :=
  String.mk (s.data.map escChar).flatten

/-- Insert a comma after every third character of a reversed digit list. -/
def grpRev : List Char → List Char
  | a :: b :: c :: d :: rest => a :: b :: c :: ',' :: grpRev (d :: rest)
  | l => l

/-- Python format spec "{x:,}" for an integer: thousands separators. -/
def commaFmt (z : ℤ) : String :=
  (if z < 0 then "-" else "") ++ String.mk ((grpRev (natStr z.natAbs).data.reverse).reverse)

/-- Face-count tier from the total amount (source lines 282-286),
thresholds checked highest first. -/
def svgFaceCount (amt : ℚ) : String :=
  if amt ≥ 100000 then "5F"
  else if amt ≥ 50000 then "4F"
  else if amt ≥ 20000 then "3F"
  else if amt ≥ 5000 then "2F"
  else "1F"

/-- Sale detection (source lines 288-290): a truthy promotion label
containing one of the three sale markers. -/
def svgIsSale (promo : String) : Bool :=
  promo ≠ "" ∧ (strContains promo "特売" ∨ strContains promo "セール" ∨ strContains promo "スポ")

/-- Accent colour (source line 292). -/
def svgAccent (sale : Bool) : String :=
  if sale then "#ef4444" else "#334155"

/-- Header background (source line 293). -/
def svgBg (sale : Bool) : String :=
  if sale then "#fef2f2" else "#f8fafc"

/-- daily_qty_map.get(d, 0). -/
def mapGet (daily : List (Date × ℚ)) (d : Date) : ℚ :=
  ((daily.find? (fun p => p.1 = d)).map Prod.snd).getD 0

/-- The day after a date (datetime.timedelta(days=1); the year-9999
overflow of Python datetime is out of claim scope). -/
def nextDay (dt : Date) : Date :=
  if dt.d < daysInMonth dt.y dt.m then ⟨dt.y, dt.m, dt.d + 1⟩
  else if dt.m < 12 then ⟨dt.y, dt.m + 1, 1⟩
  else ⟨dt.y + 1, 1, 1⟩

/-- A date plus n days. -/
def plusDays (dt : Date) : ℕ → Date
  | 0 => dt
  | n + 1 => plusDays (nextDay dt) n

/-- One cell of the 7-day calendar strip (source lines 297-305). -/
def calCell (daily : List (Date × ℚ)) (startDate : Date) (i : ℕ) : String :=
  let cd := plusDays startDate i
  let ds := natStr cd.m ++ "/" ++ natStr cd.d
  let q := mapGet daily cd
  let fillCol := if i % 2 = 0 then "#fff" else "#f9fafb"
  let textFill := if 0 < q then "#000" else "#d1d5db"
  let xPos := 5 + i * 84
  "<g transform=\"translate(" ++ natStr xPos ++
    ", 355)\"><rect width=\"84\" height=\"80\" fill=\"" ++ fillCol ++
    "\" stroke=\"#e2e8f0\"/><text x=\"42\" y=\"20\" font-family=\"sans-serif\" font-size=\"12\" fill=\"#64748b\" text-anchor=\"middle\">" ++
    ds ++
    "</text><text x=\"42\" y=\"60\" font-family=\"sans-serif\" font-size=\"26\" fill=\"" ++
    textFill ++ "\" font-weight=\"bold\" text-anchor=\"middle\">" ++ intStr (ratTrunc q) ++
    "</text></g>"

/-- The joined calendar strip. -/
def calendarSvg (daily : List (Date × ℚ)) (startDate : Date) : String :=
  ((List.range 7).map (calCell daily startDate)).foldl (fun a b => a ++ b) ""

/-- The SVG document text before the promotion-label interpolation
(source line 308). -/
def svgPre (clr bg : String) : String :=
  "<svg xmlns=\"http://www.w3.org/2000/svg\" viewBox=\"0 0 600 440\" style=\"background:#fff;\"><rect x=\"5\" y=\"5\" width=\"590\" height=\"430\" fill=\"white\" stroke=\"" ++
    clr ++ "\" stroke-width=\"6\"/><rect x=\"5\" y=\"5\" width=\"590\" height=\"65\" fill=\"" ++
    bg ++ "\"/><line x1=\"200\" y1=\"5\" x2=\"200\" y2=\"70\" stroke=\"" ++ clr ++
    "\" stroke-width=\"2\"/><line x1=\"400\" y1=\"5\" x2=\"400\" y2=\"70\" stroke=\"" ++ clr ++
    "\" stroke-width=\"2\"/><line x1=\"5\" y1=\"70\" x2=\"595\" y2=\"70\" stroke=\"" ++ clr ++
    "\" stroke-width=\"2\"/><text x=\"102\" y=\"45\" font-family=\"sans-serif\" font-size=\"28\" font-weight=\"900\" text-anchor=\"middle\" fill=\"" ++
    clr ++ "\">"

/-- The SVG document text after the promotion-label interpolation
(source line 308). -/
def svgPost (clr fc dept jan nm : String) (pr amt tq : ℚ) (cal : String) : String :=
  "</text><text x=\"215\" y=\"25\" font-family=\"sans-serif\" font-size=\"12\" fill=\"#64748b\">部門</text><text x=\"215\" y=\"55\" font-family=\"sans-serif\" font-size=\"24\" font-weight=\"bold\" fill=\"#1e293b\">" ++
    dept ++
    "</text><text x=\"415\" y=\"25\" font-family=\"sans-serif\" font-size=\"12\" fill=\"#64748b\">フェイス数</text><text x=\"500\" y=\"55\" font-family=\"sans-serif\" font-size=\"40\" font-weight=\"900\" text-anchor=\"middle\" fill=\"" ++
    clr ++ "\">" ++ fc ++
    "</text><text x=\"25\" y=\"105\" font-family=\"sans-serif\" font-size=\"12\" fill=\"#64748b\">JAN CODE</text><text x=\"25\" y=\"145\" font-family=\"monospace\" font-size=\"40\" font-weight=\"bold\" letter-spacing=\"4\" fill=\"#1e293b\">" ++
    jan ++
    "</text><text x=\"25\" y=\"185\" font-family=\"sans-serif\" font-size=\"34\" font-weight=\"900\" fill=\"#000\">" ++
    nm ++
    "</text><line x1=\"5\" y1=\"205\" x2=\"595\" y2=\"205\" stroke=\"#e2e8f0\" stroke-width=\"2\"/><text x=\"25\" y=\"235\" font-family=\"sans-serif\" font-size=\"12\" fill=\"#64748b\">単価</text><text x=\"25\" y=\"275\" font-family=\"sans-serif\" font-size=\"32\" font-weight=\"bold\">¥ " ++
    commaFmt (ratTrunc pr) ++
    "</text><text x=\"25\" y=\"315\" font-family=\"sans-serif\" font-size=\"12\" fill=\"#64748b\">合計見込額</text><text x=\"25\" y=\"345\" font-family=\"sans-serif\" font-size=\"28\" font-weight=\"bold\" fill=\"" ++
    clr ++ "\">¥ " ++ commaFmt (ratTrunc amt) ++
    "</text><rect x=\"340\" y=\"215\" width=\"240\" height=\"130\" rx=\"8\" fill=\"#f1f5f9\"/><text x=\"360\" y=\"245\" font-family=\"sans-serif\" font-size=\"14\" font-weight=\"bold\" fill=\"#475569\">合計点数</text><text x=\"460\" y=\"325\" font-family=\"sans-serif\" font-size=\"90\" font-weight=\"900\" text-anchor=\"middle\" fill=\"#000\">" ++
    intStr (ratTrunc tq) ++
    "</text><text x=\"560\" y=\"325\" font-family=\"sans-serif\" font-size=\"20\" font-weight=\"bold\" text-anchor=\"end\" fill=\"#475569\">点</text>" ++
    cal ++ "</svg>"

/-- The rendered promotion label: the literal fallback label when the
promotion string is empty. -/
def svgPromoDisp (promo : String) : String :=
  if promo = "" then "通常" else promo

/-- generate_svg (source lines 273-309).  none models the uncaught
ValueError of int() on a NaN unit price. -/
def generate_svg (row : AggRow) (daily : List (Date × ℚ)) (startDate : Date) : Option String :=
  match row.price with
  | none => none
  | some pr =>
    let nm := htmlEscape (pyStr row.name)
    let sale := svgIsSale row.promo
    let clr := svgAccent sale
    let bg := svgBg sale
    let fc := svgFaceCount row.totalAmount
    some (svgPre clr bg ++
      (svgPromoDisp row.promo ++
        svgPost clr fc row.dept row.jan nm pr row.totalAmount row.totalQty
          (calendarSvg daily startDate)))

/-- C5: if any of the three minimum required columns (delivery date,
department, product code) is absent from the input table, the
transactional parser returns an empty record set (some [], i.e. no
best-effort result and no exception), regardless of the other columns. -/
theorem claim_C5_missing_required_columns (todayYear : ℕ) (t : Table)
    (h : "納品日" ∉ t.cols ∨ "部門" ∉ t.cols ∨ "商品コード" ∉ t.cols) :
    process_format_1 todayYear t = some [] := by
  unfold process_format_1
  rw [if_pos]
  tauto

/-- C5 witness: a concrete table missing the product-code column. -/
theorem claim_C5_witness :
    process_format_1 2026
      { cols := ["納品日", "部門", "商品名", "発注数量", "売単価", "発注区分"],
        rows := [[.vStr "20240501", .vNum 12, .vStr "A", .vNum 3, .vNum 100, .vNone]] } =
      some [] :=
  claim_C5_missing_required_columns 2026 _ (Or.inr (Or.inr (by decide)))

/-- C9: the POP classification is deterministic with thresholds checked
highest first (>= 100000 gives the top tier 5F, >= 50000 gives 4F,
>= 20000 gives 3F, >= 5000 gives 2F, otherwise 1F), and a promotion
label containing any of the three sale markers selects the alternate
accent colour and background; in particular total amount 75000 with the
special-sale marker renders the second-highest tier 4F with the
alternate accent colour. -/
theorem claim_C9_pop_classification (amt : ℚ) (promo : String) :
    (100000 ≤ amt → svgFaceCount amt = "5F") ∧
    (50000 ≤ amt → amt < 100000 → svgFaceCount amt = "4F") ∧
    (20000 ≤ amt → amt < 50000 → svgFaceCount amt = "3F") ∧
    (5000 ≤ amt → amt < 20000 → svgFaceCount amt = "2F") ∧
    (amt < 5000 → svgFaceCount amt = "1F") ∧
    ((strContains promo "特売" = true ∨ strContains promo "セール" = true ∨
        strContains promo "スポ" = true) →
      svgIsSale promo = true ∧ svgAccent (svgIsSale promo) = "#ef4444" ∧
        svgBg (svgIsSale promo) = "#fef2f2") ∧
    (svgFaceCount 75000 = "4F" ∧ svgIsSale "特売" = true ∧
      svgAccent (svgIsSale "特売") = "#ef4444") := by
  refine ⟨?_, ?_, ?_, ?_, ?_, ?_, ?_⟩
  · intro h1
    unfold svgFaceCount
    rw [if_pos (by exact_mod_cast h1)]
  · intro h1 h2
    unfold svgFaceCount
    rw [if_neg (by exact not_le.mpr h2), if_pos h1]
  · intro h1 h2
    unfold svgFaceCount
    rw [if_neg (by exact not_le.mpr (lt_trans h2 (by norm_num))),
      if_neg (by exact not_le.mpr h2), if_pos h1]
  · intro h1 h2
    unfold svgFaceCount
    rw [if_neg (by exact not_le.mpr (lt_trans h2 (by norm_num))),
      if_neg (by exact not_le.mpr (lt_trans h2 (by norm_num))),
      if_neg (by exact not_le.mpr h2), if_pos h1]
  · intro h1
    unfold svgFaceCount
    rw [if_neg (by exact not_le.mpr (lt_trans h1 (by norm_num))),
      if_neg (by exact not_le.mpr (lt_trans h1 (by norm_num))),
      if_neg (by exact not_le.mpr (lt_trans h1 (by norm_num))),
      if_neg (by exact not_le.mpr h1)]
  · intro h1
    have hne : promo ≠ "" := by
      intro hcon
      subst hcon
      rcases h1 with h1 | h1 | h1 <;> exact absurd h1 (by decide)
    have hsale : svgIsSale promo = true := by
      unfold svgIsSale
      simp only [decide_eq_true_eq, Bool.decide_and, Bool.decide_or, Bool.and_eq_true,
        Bool.or_eq_true, decide_not]
      constructor
      · simpa using hne
      · rcases h1 with h1 | h1 | h1 <;> simp [h1]
    exact ⟨hsale, by rw [hsale]; rfl, by rw [hsale]; rfl⟩
  · refine ⟨?_, by decide, by decide⟩
    unfold svgFaceCount
    norm_num

/-- C9 witness: the scenario instance, discharging the tier-4 bounds at
amount 75000 and the sale-marker hypothesis at the special-sale label. -/
theorem claim_C9_witness :
    svgFaceCount 75000 = "4F" ∧ svgIsSale "特売10%" = true :=
  ⟨(claim_C9_pop_classification 75000 "特売10%").2.1 (by norm_num) (by norm_num),
   ((claim_C9_pop_classification 75000 "特売10%").2.2.2.2.2.1
     (Or.inl (by decide))).1⟩

/-- C4: for a (row, date-group) pair of the matrix layout (a real group
label, i.e. nonempty and not the "nan" string), a quantity cell that is
missing or non-numeric (toNumeric none) or exactly 0 emits no canonical
record, while any other numeric quantity emits exactly one record
carrying that quantity (the parser appends one emitCell result per
(row, date-group) pair, so some (some r) is exactly one record). -/
theorem claim_C4_matrix_quantity_gate (todayYear : ℕ)
    (nc : List (Option String × String)) (row : List PVal)
    (base : List (Option String × PVal)) (janV : PVal) (d : String)
    (hd1 : d ≠ "") (hd2 : d ≠ "nan") :
    (toNumeric (rowGet nc row (some d, "数量")) = none →
      emitCell todayYear nc row base janV d = some none) ∧
    (toNumeric (rowGet nc row (some d, "数量")) = some 0 →
      emitCell todayYear nc row base janV d = some none) ∧
    (∀ q, toNumeric (rowGet nc row (some d, "数量")) = some q → q ≠ 0 →
      ∀ dp, clean_dept (baseGet base "部門" (.vStr "000")) = some dp →
        ∃ r, emitCell todayYear nc row base janV d = some (some r) ∧ r.qty = some q) := by
  have hcond : ¬ (d = "" ∨ d = "nan") := by tauto
  refine ⟨?_, ?_, ?_⟩
  · intro hq
    unfold emitCell
    rw [if_neg hcond, hq]
  · intro hq
    unfold emitCell
    rw [if_neg hcond, hq]
    simp
  · intro q hq hq0 dp hdp
    unfold emitCell
    rw [if_neg hcond, hq]
    dsimp only
    rw [if_neg hq0, hdp]
    exact ⟨_, rfl, rfl⟩

/-- C4 witness: a 0.5 quantity emits exactly one record, a 0 quantity
and a missing cell emit none, at concrete cells. -/
theorem claim_C4_witness :
    (∃ r, emitCell 2026 [(some "6/1", "数量")] [.vNum (1 / 2)] [] (.vStr "4901") "6/1" =
        some (some r) ∧ r.qty = some (1 / 2)) ∧
    emitCell 2026 [(some "6/1", "数量")] [.vNum 0] [] (.vStr "4901") "6/1" = some none ∧
    emitCell 2026 [(some "6/1", "数量")] [] [] (.vStr "4901") "6/1" = some none :=
  ⟨(claim_C4_matrix_quantity_gate 2026 [(some "6/1", "数量")] [.vNum (1 / 2)] [] (.vStr "4901")
      "6/1" (by decide) (by decide)).2.2 (1 / 2) rfl (by norm_num) "000" (by decide),
   (claim_C4_matrix_quantity_gate 2026 [(some "6/1", "数量")] [.vNum 0] [] (.vStr "4901")
      "6/1" (by decide) (by decide)).2.1 rfl,
   (claim_C4_matrix_quantity_gate 2026 [(some "6/1", "数量")] [] [] (.vStr "4901")
      "6/1" (by decide) (by decide)).1 rfl⟩

/-- C10: the promotion label is interpolated into the SVG document
without escaping: for a concrete aggregated item whose promotion label
is the markup string "<bad>", the rendered document contains the raw
"<bad>" (while html escaping, applied to the product name only, would
have rewritten it). -/
theorem claim_C10_promo_unescaped :
    (∃ a b,
      generate_svg
        { jan := "4901", dept := "012", name := .vStr "Item", price := some 100,
          totalQty := 5, totalAmount := 500, promo := "<bad>" } [] ⟨2024, 5, 1⟩ =
        some (a ++ ("<bad>" ++ b))) ∧
    htmlEscape "<bad>" ≠ "<bad>" := by
  constructor
  · exact ⟨svgPre (svgAccent (svgIsSale "<bad>")) (svgBg (svgIsSale "<bad>")),
      svgPost (svgAccent (svgIsSale "<bad>")) (svgFaceCount 500) "012" "4901"
        (htmlEscape (pyStr (.vStr "Item"))) 100 500 5 (calendarSvg [] ⟨2024, 5, 1⟩),
      rfl⟩
  · decide

/-- Digit lists whose characters are all zero encode the value zero
(fuel at least the encoded number). -/
lemma natDigitsAux_all_zero :
    ∀ fuel n, n ≤ fuel → (∀ c ∈ natDigitsAux fuel n, c = '0') → n = 0 := by
  intro fuel
  induction fuel with
  | zero => intro n hn _; omega
  | succ fuel ih =>
    intro n hn hall
    by_cases h0 : n = 0
    · exact h0
    · exfalso
      have hdigits : natDigitsAux (fuel + 1) n =
          Char.ofNat (n % 10 + 48) :: natDigitsAux fuel (n / 10) := by
        simp [natDigitsAux, h0]
      have hhead : Char.ofNat (n % 10 + 48) = '0' := by
        apply hall
        rw [hdigits]
        exact List.mem_cons_self _ _
      have htail : ∀ c ∈ natDigitsAux fuel (n / 10), c = '0' := by
        intro c hc
        apply hall
        rw [hdigits]
        exact List.mem_cons_of_mem _ hc
      have hdivle : n / 10 ≤ fuel := by
        have := Nat.div_lt_self (Nat.pos_of_ne_zero h0) (by norm_num : 1 < 10)
        omega
      have hdiv : n / 10 = 0 := ih (n / 10) hdivle htail
      have hmodlt : n % 10 < 10 := Nat.mod_lt _ (by norm_num)
      have hmod : n % 10 = 0 := by
        set k := n % 10 with hk
        interval_cases k
        · rfl
        all_goals exact absurd hhead (by decide)
      have := Nat.div_add_mod n 10
      omega

/-- A natural number rendering consisting only of zero characters is the
rendering of zero. -/
lemma natStr_all_zero {n : ℕ} (h : ∀ c ∈ (natStr n).data, c = '0') : n = 0 := by
  by_cases h0 : n = 0
  · exact h0
  · exfalso
    apply h0
    apply natDigitsAux_all_zero (n + 1) n (by omega)
    intro c hc
    apply h
    have : (natStr n).data = (natDigitsAux (n + 1) n).reverse := by
      simp [natStr, h0]
    rw [this]
    exact List.mem_reverse.mpr hc

/-- Every character of the padded string comes from the pad or from the
original string. -/
lemma zfill_data_subset (w : ℕ) (s : String) :
    ∀ c ∈ s.data, c ∈ (zfill w s).data := by
  intro c hc
  unfold zfill
  by_cases hw : w ≤ s.length
  · rw [if_pos hw]; exact hc
  · rw [if_neg hw]
    rcases hd : s.data with _ | ⟨c0, rest⟩
    · rw [hd] at hc; cases hc
    · dsimp only
      by_cases hsign : c0 = '-' ∨ c0 = '+'
      · rw [if_pos hsign]
        rw [hd] at hc
        simp only [String.data_append]
        rcases List.mem_cons.mp hc with h | h
        · subst h; simp
        · simp [h]
      · rw [if_neg hsign]
        simp only [String.data_append]
        exact List.mem_append_right _ hc

/-- Padding a string to width three yields a string of length at least
three. -/
lemma zfill_three_length (s : String) : 3 ≤ (zfill 3 s).length := by
  unfold zfill
  by_cases hw : 3 ≤ s.length
  · rw [if_pos hw]; exact hw
  · rw [if_neg hw]
    have hlen : s.length = s.data.length := rfl
    rcases hd : s.data with _ | ⟨c0, rest⟩
    · dsimp only
      simp only [String.length_append]
      have : (String.mk (List.replicate (3 - s.length) '0')).length = 3 - s.length :=
        List.length_replicate _ _
      omega
    · dsimp only
      have hslen : s.length = rest.length + 1 := by
        rw [hlen, hd]; simp
      by_cases hsign : c0 = '-' ∨ c0 = '+'
      · rw [if_pos hsign]
        simp only [String.length_append]
        have h1 : (String.mk [c0]).length = 1 := rfl
        have h2 : (String.mk (List.replicate (3 - s.length) '0')).length = 3 - s.length :=
          List.length_replicate _ _
        have h3 : (String.mk rest).length = rest.length := rfl
        omega
      · rw [if_neg hsign]
        simp only [String.length_append]
        have h2 : (String.mk (List.replicate (3 - s.length) '0')).length = 3 - s.length :=
          List.length_replicate _ _
        omega

/-- A nonzero integer never renders (zero-padded to three) as "000". -/
lemma zfill_intStr_ne_zero {z : ℤ} (hz : z ≠ 0) : zfill 3 (intStr z) ≠ "000" := by
  intro h
  have hall : ∀ c ∈ (intStr z).data, c = '0' := by
    intro c hc
    have hmem := zfill_data_subset 3 (intStr z) c hc
    rw [h] at hmem
    simpa using hmem
  by_cases hneg : z < 0
  · have hdata : (intStr z).data = '-' :: (natStr z.natAbs).data := by
      unfold intStr
      rw [if_pos hneg]
      rfl
    have : ('-' : Char) = '0' := hall '-' (by rw [hdata]; exact List.mem_cons_self _ _)
    exact absurd this (by decide)
  · have hdata : intStr z = natStr z.natAbs := by
      unfold intStr
      rw [if_neg hneg]
    have hnat : z.natAbs = 0 := by
      apply natStr_all_zero
      intro c hc
      exact hall c (by rw [hdata]; exact hc)
    exact hz (Int.natAbs_eq_zero.mp hnat)

/-- C8 (amended): the department normalizer is total except where the
coercion reaches an infinite float — a literal inf/infinity spelling,
or any numeric value whose magnitude reaches the double overflow bound
(so float() yields an infinity, or raises directly on a huge integer)
and int() then raises an uncaught OverflowError; every returned value
is the truncated integer zero-padded to AT LEAST three characters; and
the literal "000" is returned exactly on true coercion failure or when
the coerced value truncates to 0. -/
theorem claim_C8_clean_dept (v : PVal) :
    (clean_dept v = none ↔
      (∃ s, v = .vStr s ∧ isInfStr s.data = true) ∨
      (∃ q, floatCoerce v = some q ∧ overflowsFloat q = true)) ∧
    (∀ s, clean_dept v = some s → 3 ≤ s.length) ∧
    (∀ s, clean_dept v = some s →
      (s = "000" ↔ floatCoerce v = none ∨ ∃ q, floatCoerce v = some q ∧ ratTrunc q = 0)) := by
  have h000 : (3 : ℕ) ≤ ("000" : String).length := by decide
  cases v with
  | vNone =>
    refine ⟨by simp [clean_dept, floatCoerce], ?_, ?_⟩
    · intro s hs
      have hs0 : s = "000" := (Option.some.inj hs).symm
      rw [hs0]
      exact h000
    · intro s hs
      have hs0 : s = "000" := (Option.some.inj hs).symm
      subst hs0
      simp [floatCoerce]
  | vNum q =>
    have hcd : clean_dept (.vNum q) =
        if overflowsFloat q then none else some (renderDept (some q)) := rfl
    by_cases hov : overflowsFloat q = true
    · rw [if_pos hov] at hcd
      refine ⟨?_, ?_, ?_⟩
      · rw [hcd]
        exact iff_of_true rfl (Or.inr ⟨q, rfl, hov⟩)
      · intro s hs
        rw [hcd] at hs
        exact Option.noConfusion hs
      · intro s hs
        rw [hcd] at hs
        exact Option.noConfusion hs
    · simp only [Bool.not_eq_true] at hov
      rw [if_neg (by simp [hov])] at hcd
      refine ⟨?_, ?_, ?_⟩
      · rw [hcd]
        constructor
        · intro h
          exact Option.noConfusion h
        · rintro (⟨s2, hvs, _⟩ | ⟨q2, hq2, hov2⟩)
          · exact PVal.noConfusion hvs
          · have hq2s : some q = some q2 := hq2
            have hqq : q = q2 := Option.some.inj hq2s
            exact absurd (hqq ▸ hov2) (by simp [hov])
      · intro s hs
        rw [hcd] at hs
        have hs0 : s = renderDept (some q) := (Option.some.inj hs).symm
        rw [hs0]
        exact zfill_three_length _
      · intro s hs
        rw [hcd] at hs
        have hs0 : s = renderDept (some q) := (Option.some.inj hs).symm
        subst hs0
        constructor
        · intro hzero
          by_cases hq0 : ratTrunc q = 0
          · exact Or.inr ⟨q, rfl, hq0⟩
          · exact absurd hzero (zfill_intStr_ne_zero hq0)
        · rintro (h | ⟨q2, hq2, hz2⟩)
          · exact Option.noConfusion h
          · have hq2s : some q = some q2 := hq2
            have hqq : q = q2 := Option.some.inj hq2s
            show zfill 3 (intStr (ratTrunc q)) = "000"
            rw [hqq, hz2]
            decide
  | vStr t =>
    by_cases hinf : isInfStr t.data = true
    · have hcd : clean_dept (.vStr t) = none := by
        unfold clean_dept
        dsimp only
        rw [if_pos hinf]
      refine ⟨?_, ?_, ?_⟩
      · rw [hcd]
        exact iff_of_true rfl (Or.inl ⟨t, rfl, hinf⟩)
      · intro s hs
        rw [hcd] at hs
        exact Option.noConfusion hs
      · intro s hs
        rw [hcd] at hs
        exact Option.noConfusion hs
    · simp only [Bool.not_eq_true] at hinf
      cases hp : parseDec (pyStrip t.data) with
      | none =>
        have hcd : clean_dept (.vStr t) = some "000" := by
          unfold clean_dept
          dsimp only
          rw [if_neg (by simp [hinf]), hp]
        refine ⟨?_, ?_, ?_⟩
        · rw [hcd]
          constructor
          · intro h
            exact Option.noConfusion h
          · rintro (⟨s2, hvs, hinf2⟩ | ⟨q2, hq2, _⟩)
            · have ht : t = s2 := by injection hvs
              exact absurd (ht ▸ hinf2) (by simp [hinf])
            · have hq2s : parseDec (pyStrip t.data) = some q2 := hq2
              rw [hp] at hq2s
              exact Option.noConfusion hq2s
        · intro s hs
          rw [hcd] at hs
          have hs0 : s = "000" := (Option.some.inj hs).symm
          rw [hs0]
          exact h000
        · intro s hs
          rw [hcd] at hs
          have hs0 : s = "000" := (Option.some.inj hs).symm
          subst hs0
          refine iff_of_true rfl (Or.inl ?_)
          show parseDec (pyStrip t.data) = none
          exact hp
      | some q =>
        have hcd : clean_dept (.vStr t) =
            if overflowsFloat q then none else some (renderDept (some q)) := by
          unfold clean_dept
          dsimp only
          rw [if_neg (by simp [hinf]), hp]
        by_cases hov : overflowsFloat q = true
        · rw [if_pos hov] at hcd
          refine ⟨?_, ?_, ?_⟩
          · rw [hcd]
            refine iff_of_true rfl (Or.inr ⟨q, ?_, hov⟩)
            show parseDec (pyStrip t.data) = some q
            exact hp
          · intro s hs
            rw [hcd] at hs
            exact Option.noConfusion hs
          · intro s hs
            rw [hcd] at hs
            exact Option.noConfusion hs
        · simp only [Bool.not_eq_true] at hov
          rw [if_neg (by simp [hov])] at hcd
          refine ⟨?_, ?_, ?_⟩
          · rw [hcd]
            constructor
            · intro h
              exact Option.noConfusion h
            · rintro (⟨s2, hvs, hinf2⟩ | ⟨q2, hq2, hov2⟩)
              · have ht : t = s2 := by injection hvs
                exact absurd (ht ▸ hinf2) (by simp [hinf])
              · have hq2s : parseDec (pyStrip t.data) = some q2 := hq2
                rw [hp] at hq2s
                have hqq : q = q2 := Option.some.inj hq2s
                exact absurd (hqq ▸ hov2) (by simp [hov])
          · intro s hs
            rw [hcd] at hs
            have hs0 : s = renderDept (some q) := (Option.some.inj hs).symm
            rw [hs0]
            exact zfill_three_length _
          · intro s hs
            rw [hcd] at hs
            have hs0 : s = renderDept (some q) := (Option.some.inj hs).symm
            subst hs0
            constructor
            · intro hzero
              refine Or.inr ⟨q, ?_, ?_⟩
              · show parseDec (pyStrip t.data) = some q
                exact hp
              · by_contra hq0
                exact absurd hzero (zfill_intStr_ne_zero hq0)
            · rintro (h | ⟨q2, hq2, hz2⟩)
              · have hps : parseDec (pyStrip t.data) = none := h
                rw [hp] at hps
                exact Option.noConfusion hps
              · have hq2s : parseDec (pyStrip t.data) = some q2 := hq2
                rw [hp] at hq2s
                have hqq : q = q2 := Option.some.inj hq2s
                show zfill 3 (intStr (ratTrunc q)) = "000"
                rw [hqq, hz2]
                decide

/-- C8 counterexample: the claim as stated fails in three concrete ways:
a four-digit department value renders as a four-character string (not a
3-digit one), the float string "inf" makes the normalizer raise
(OverflowError is not among the caught exception types), and "000" is
also returned for the successfully coerced value 0, not only on
coercion failure. -/
theorem claim_C8_counterexample :
    clean_dept (.vNum 1234) = some "1234" ∧ ("1234" : String).length ≠ 3 ∧
      clean_dept (.vStr "inf") = none ∧
      (clean_dept (.vNum 0) = some "000" ∧ floatCoerce (.vNum 0) = some 0 ∧
        ratTrunc 0 = 0) := by
  decide

/-- C8 witness: the amended theorem applied at the concrete input 7,
whose rendering "007" has length at least three. -/
theorem claim_C8_witness : 3 ≤ ("007" : String).length :=
  (claim_C8_clean_dept (.vNum 7)).2.1 "007" (by decide)

/-- An accepted 8-digit token has exactly eight characters. -/
lemma read8_length {l : List Char} {t : ℕ × ℕ × ℕ} (h : read8 l = some t) :
    l.length = 8 := by
  unfold read8 at h
  rcases l with
    _ | ⟨a, _ | ⟨b, _ | ⟨c, _ | ⟨d, _ | ⟨e, _ | ⟨f, _ | ⟨g, _ | ⟨k, _ | ⟨m, rest⟩⟩⟩⟩⟩⟩⟩⟩⟩ <;>
    simp_all

/-- C6 (amended): the deterministic strategy cascade of the date
normalizer.  Writing l for the stripped string form of the input:
(0) empty and "nan" inputs give none; (1) a valid 8-digit YYYYMMDD
token recovers the exact calendar date; (2) an M/D prefix match whose
month/day combination is valid for the default year (the supplied one,
else today's year) gives that date with the default year; (2') when the
combination is invalid for the default year the normalizer FALLS
THROUGH to the general parser instead of returning an absent result
directly — the general parser rejects yearless M/D tokens (pandas
resolves them against a year-1 default, which always fails) but can
still produce a date when the token carries more, e.g. an explicit
year or a value above 31 read as a two-digit year; (3) when the
8-digit and M/D strategies both fail the result is exactly that of the
general parser, hence absent when that also fails. -/
theorem claim_C6_parse_date_str (todayYear : ℕ) (v : PVal) (default_year : Option ℕ) :
    ((pyStrip (pyStr v).data = [] ∨ pyLower (pyStrip (pyStr v).data) = "nan".data) →
      parse_date_str todayYear v default_year = none) ∧
    (∀ y m d, read8 (pyStrip (pyStr v).data) = some (y, m, d) → validYMD y m d = true →
      parse_date_str todayYear v default_year = some ⟨y, m, d⟩) ∧
    (∀ m d, pyStrip (pyStr v).data ≠ [] → pyLower (pyStrip (pyStr v).data) ≠ "nan".data →
      read8 (pyStrip (pyStr v).data) = none →
      matchMD (pyStrip (pyStr v).data) = some (m, d) →
      validYMD (default_year.getD todayYear) m d = true →
      parse_date_str todayYear v default_year =
        some ⟨default_year.getD todayYear, m, d⟩) ∧
    (∀ m d, pyStrip (pyStr v).data ≠ [] → pyLower (pyStrip (pyStr v).data) ≠ "nan".data →
      read8 (pyStrip (pyStr v).data) = none →
      matchMD (pyStrip (pyStr v).data) = some (m, d) →
      validYMD (default_year.getD todayYear) m d = false →
      parse_date_str todayYear v default_year =
        pdToDatetime todayYear (pyStrip (pyStr v).data)) ∧
    (pyStrip (pyStr v).data ≠ [] → pyLower (pyStrip (pyStr v).data) ≠ "nan".data →
      ((read8 (pyStrip (pyStr v).data)).bind (fun t => mkDate? t.1 t.2.1 t.2.2)) = none →
      matchMD (pyStrip (pyStr v).data) = none →
      parse_date_str todayYear v default_year =
        pdToDatetime todayYear (pyStrip (pyStr v).data)) := by
  refine ⟨?_, ?_, ?_, ?_, ?_⟩
  · intro h
    unfold parse_date_str
    rw [if_pos h]
  · intro y m d hread hvalid
    have hlen : (pyStrip (pyStr v).data).length = 8 := read8_length hread
    have hne : pyStrip (pyStr v).data ≠ [] := by
      intro hcon; rw [hcon] at hlen; simp at hlen
    have hnan : pyLower (pyStrip (pyStr v).data) ≠ "nan".data := by
      intro hcon
      have := congrArg List.length hcon
      simp [pyLower, hlen] at this
    unfold parse_date_str
    rw [if_neg (by tauto), hread]
    dsimp only [Option.bind]
    unfold mkDate?
    rw [if_pos hvalid]
  · intro m d hne hnan hread hmd hvalid
    unfold parse_date_str
    rw [if_neg (by tauto), hread]
    dsimp only [Option.bind]
    rw [hmd]
    unfold mkDate?
    dsimp only
    rw [if_pos hvalid]
  · intro m d hne hnan hread hmd hvalid
    unfold parse_date_str
    rw [if_neg (by tauto), hread]
    dsimp only [Option.bind]
    rw [hmd]
    unfold mkDate?
    dsimp only
    rw [if_neg (by simp [hvalid])]
  · intro hne hnan hstrat1 hmd
    unfold parse_date_str
    rw [if_neg (by tauto), hstrat1, hmd]

/-- C6 counterexample: M/D tokens whose month/day combination is
invalid for the supplied default year do NOT give an absent result.
"2/29/2024" prefix-matches the M/D regex as (2, 29), invalid for the
supplied default year 2023, but the general parser then reads the full
string as the delimited date 2024-02-29; and "1/32" (day 32, invalid
for any year) is handed to dateutil, which reads 32 as a two-digit
year, yielding 2032-01-01 (today's year 2026).  In both cases the
result is present, and its year is not the supplied default year. -/
theorem claim_C6_counterexample :
    validYMD 2023 2 29 = false ∧
      parse_date_str 2026 (.vStr "2/29/2024") (some 2023) = some ⟨2024, 2, 29⟩ ∧
      validYMD 2024 1 32 = false ∧
      parse_date_str 2026 (.vStr "1/32") (some 2024) = some ⟨2032, 1, 1⟩ := by
  decide

/-- C6 witness: the amended theorem applied to the M/D token
"11/3(Mon)" with no default year supplied and today's year 2026. -/
theorem claim_C6_witness :
    parse_date_str 2026 (.vStr "11/3(Mon)") none = some ⟨2026, 11, 3⟩ :=
  (claim_C6_parse_date_str 2026 (.vStr "11/3(Mon)") none).2.2.1 11 3 (by decide) (by decide)
    (by decide) (by decide) (by decide)

/-- Every element of a successful traversal comes from applying the
function to some input element. -/
lemma optionTraverse_mem {α β : Type} (f : α → Option β) :
    ∀ (l : List α) (out : List β), optionTraverse f l = some out →
      ∀ x ∈ out, ∃ a ∈ l, f a = some x := by
  intro l
  induction l with
  | nil =>
    intro out h x hx
    unfold optionTraverse at h
    injection h with h
    subst h
    cases hx
  | cons a l ih =>
    intro out h x hx
    unfold optionTraverse at h
    cases hfa : f a with
    | none => rw [hfa] at h; simp at h
    | some b =>
      cases htl : optionTraverse f l with
      | none => rw [hfa, htl] at h; simp at h
      | some bs =>
        rw [hfa, htl] at h
        dsimp only at h
        injection h with h
        subst h
        rcases List.mem_cons.mp hx with h | h
        · exact ⟨a, List.mem_cons_self _ _, by rw [hfa, h]⟩
        · obtain ⟨a2, ha2, hfa2⟩ := ih bs htl x h
          exact ⟨a2, List.mem_cons_of_mem _ ha2, hfa2⟩

/-- An emitted matrix record always carries the parsed nonzero
quantity. -/
lemma emitCell_some_qty {todayYear : ℕ} {nc : List (Option String × String)}
    {row : List PVal} {base : List (Option String × PVal)} {janV : PVal} {d : String}
    {r : Record} (h : emitCell todayYear nc row base janV d = some (some r)) :
    ∃ q, r.qty = some q ∧ q ≠ 0 := by
  unfold emitCell at h
  by_cases hd : d = "" ∨ d = "nan"
  · rw [if_pos hd] at h
    simp at h
  · rw [if_neg hd] at h
    cases htn : toNumeric (rowGet nc row (some d, "数量")) with
    | none => rw [htn] at h; simp at h
    | some q =>
      rw [htn] at h
      dsimp only at h
      by_cases hq0 : q = 0
      · rw [if_pos hq0] at h; simp at h
      · rw [if_neg hq0] at h
        cases hcd : clean_dept (baseGet base "部門" (.vStr "000")) with
        | none => rw [hcd] at h; cases h
        | some dp =>
          rw [hcd] at h
          dsimp only at h
          injection h with h
          injection h with h
          subst h
          exact ⟨q, rfl, hq0⟩

/-- C1 (amended): every record stored by the Transactional Parser has a
non-null date (date-less rows are dropped) and non-null quantity and
unit price (numeric coercion with parse failures defaulting to 0, signs
unconstrained); every record stored by the Matrix Parser has a
non-null, nonzero quantity (its date and unit price may be null, per
the counterexample). -/
theorem claim_C1_record_invariants (todayYear : ℕ) (t : Table) (mt : MTable) :
    (∀ rs, process_format_1 todayYear t = some rs → ∀ r ∈ rs,
      r.date.isSome ∧ r.qty.isSome ∧ r.price.isSome) ∧
    (∀ rs, process_format_2_from_df todayYear mt = some rs → ∀ r ∈ rs,
      ∃ q, r.qty = some q ∧ q ≠ 0) := by
  constructor
  · intro rs h r hr
    unfold process_format_1 at h
    by_cases h1 : "納品日" ∈ t.cols ∧ "部門" ∈ t.cols ∧ "商品コード" ∈ t.cols
    · rw [if_neg (not_not_intro h1)] at h
      by_cases h2 : "商品名" ∈ t.cols ∧ "発注数量" ∈ t.cols ∧ "売単価" ∈ t.cols ∧
          "発注区分" ∈ t.cols
      · rw [if_neg (not_not_intro h2)] at h
        obtain ⟨rs0, htrav, hmap⟩ := Option.map_eq_some'.mp h
        subst hmap
        have hr0 := List.mem_filter.mp hr
        have hdate : r.date.isSome := by simpa using hr0.2
        obtain ⟨row, _, hrow⟩ := optionTraverse_mem _ _ _ htrav r hr0.1
        unfold format1Row at hrow
        obtain ⟨dp, _, hrec⟩ := Option.map_eq_some'.mp hrow
        refine ⟨hdate, ?_, ?_⟩ <;> rw [← hrec] <;> rfl
      · rw [if_pos h2] at h
        cases h
    · rw [if_pos h1] at h
      injection h with h
      subst h
      cases hr
  · intro rs h r hr
    unfold process_format_2_from_df at h
    obtain ⟨outs, htrav, hmap⟩ := Option.map_eq_some'.mp h
    subst hmap
    obtain ⟨l, hl, hrl⟩ := List.mem_flatten.mp hr
    obtain ⟨row, _, hrow⟩ := optionTraverse_mem _ _ _ htrav l hl
    unfold matrixRow at hrow
    dsimp only at hrow
    cases hjan : baseJan ((fixedColsOf (ffillCols none mt.cols)).map
        (fun p => (p.1, rowGet (ffillCols none mt.cols) row p))) with
    | none =>
      rw [hjan] at hrow
      injection hrow with hrow
      subst hrow
      cases hrl
    | some jv =>
      rw [hjan] at hrow
      dsimp only at hrow
      by_cases hjv : jv = PVal.vNone
      · rw [if_pos hjv] at hrow
        injection hrow with hrow
        subst hrow
        cases hrl
      · rw [if_neg hjv] at hrow
        obtain ⟨cells, htrav2, hl2⟩ := Option.map_eq_some'.mp hrow
        subst hl2
        have hsome : some r ∈ cells := List.reduceOption_mem_iff.mp hrl
        obtain ⟨d, _, hd⟩ := optionTraverse_mem _ _ _ htrav2 (some r) hsome
        exact emitCell_some_qty hd

/-- C1 counterexample: a concrete matrix-layout table whose single
stored record has a null date (the group label "xx" fails every date
strategy), a null unit price (no price sub-column), and a negative
quantity — contradicting the claims that date is never null, that
unitPrice defaults to 0 on parse failure, and that quantity is
non-negative. -/
theorem claim_C1_counterexample :
    process_format_2_from_df 2026
      { cols := [("JANコード", "Unnamed: 0_level_1"), ("xx", "数量")],
        rows := [[.vStr "4901", .vNum (-2)]] } =
      some [{ date := none, dept := "000", jan := "4901", name := .vStr "",
              qty := some (-2), price := none, promo := "" }] ∧
    ((-2 : ℚ) < 0) := by
  constructor
  · decide
  · norm_num

/-- C1 witness: the amended theorem applied to concrete transactional
and matrix tables. -/
theorem claim_C1_witness :
    ((({ date := some ⟨2024, 5, 1⟩, dept := "012", jan := "4901", name := .vStr "A",
         qty := some 3, price := some 100, promo := "" } : Record)).date.isSome ∧
      (({ date := some ⟨2024, 5, 1⟩, dept := "012", jan := "4901", name := .vStr "A",
          qty := some 3, price := some 100, promo := "" } : Record)).qty.isSome ∧
      (({ date := some ⟨2024, 5, 1⟩, dept := "012", jan := "4901", name := .vStr "A",
          qty := some 3, price := some 100, promo := "" } : Record)).price.isSome) :=
  (claim_C1_record_invariants 2026
      { cols := ["納品日", "部門", "商品コード", "商品名", "発注数量", "売単価", "発注区分"],
        rows := [[.vStr "20240501", .vNum 12, .vStr "4901", .vStr "A", .vNum 3, .vNum 100,
                  .vNone]] }
      { cols := [], rows := [] }).1
    [{ date := some ⟨2024, 5, 1⟩, dept := "012", jan := "4901", name := .vStr "A",
       qty := some 3, price := some 100, promo := "" }] (by decide)
    { date := some ⟨2024, 5, 1⟩, dept := "012", jan := "4901", name := .vStr "A",
      qty := some 3, price := some 100, promo := "" } (by decide)

/-- Characterisation of the pivot date columns: exactly the dates of
records surviving the pivot dropna. -/
lemma mem_pivotDates {rs : List Record} {d : Date} :
    d ∈ pivotDates rs ↔
      ∃ r ∈ rs, r.date = some d ∧ r.price.isSome ∧ r.name ≠ PVal.vNone := by
  unfold pivotDates pivotSurvivors
  rw [List.mem_insertionSort, List.mem_dedup, List.mem_filterMap]
  constructor
  · rintro ⟨r, hr, hd⟩
    have hmem := List.mem_filter.mp hr
    have hside := hmem.2
    simp only [decide_eq_true_eq] at hside
    exact ⟨r, hmem.1, hd, hside.2.1, hside.2.2⟩
  · rintro ⟨r, hr, hd, hp, hn⟩
    refine ⟨r, List.mem_filter.mpr ⟨hr, ?_⟩, hd⟩
    simp only [decide_eq_true_eq]
    exact ⟨by rw [hd]; rfl, hp, hn⟩

/-- C3 (amended): the pivot CSV columns are the fixed identity columns,
then the date columns sorted ascending, then the totals and promotion
tail, with the JAN cells apostrophe-prefixed; the date columns are
exactly the dates of the records that survive the pivot dropna (rows
whose unit price or product name is null are silently dropped by the
pandas pivot, per the counterexample), and in particular no date column
is ever absent from the input dates. -/
theorem claim_C3_pivot_header (rs : List Record) (h : rs ≠ []) :
    create_matrix_csv_header rs =
      ["部門", "JAN", "商品名", "単価"] ++ (pivotDates rs).map fmtDate ++
        ["合計数量", "合計金額", "販促"] ∧
    (pivotDates rs).Sorted dateLe ∧
    (∀ d, d ∈ pivotDates rs ↔
      ∃ r ∈ rs, r.date = some d ∧ r.price.isSome ∧ r.name ≠ PVal.vNone) ∧
    (∀ d ∈ pivotDates rs, ∃ r ∈ rs, r.date = some d) ∧
    pivotJanCells rs = (pivotRows rs).map (fun p => (Char.ofNat 39).toString ++ p.jan) := by
  refine ⟨?_, ?_, fun d => mem_pivotDates, ?_, rfl⟩
  · unfold create_matrix_csv_header
    rw [if_neg h]
  · unfold pivotDates
    exact List.sorted_insertionSort _ _
  · intro d hd
    obtain ⟨r, hr, hd2, _, _⟩ := mem_pivotDates.mp hd
    exact ⟨r, hr, hd2⟩

/-- C3 counterexample: a one-record input whose unit price is null (a
matrix-parser record with a missing price cell); its date 2024-05-01
occurs in the input, yet the emitted header has NO date column at all —
refuting "the date columns are exactly the dates that occur in that
input". -/
theorem claim_C3_counterexample :
    ({ date := some ⟨2024, 5, 1⟩, dept := "012", jan := "4901", name := .vStr "A",
       qty := some 2, price := none, promo := "" } : Record).date = some ⟨2024, 5, 1⟩ ∧
    create_matrix_csv_header
      [{ date := some ⟨2024, 5, 1⟩, dept := "012", jan := "4901", name := .vStr "A",
         qty := some 2, price := none, promo := "" }] =
      ["部門", "JAN", "商品名", "単価", "合計数量", "合計金額", "販促"] ∧
    ¬ fmtDate ⟨2024, 5, 1⟩ ∈
      create_matrix_csv_header
        [{ date := some ⟨2024, 5, 1⟩, dept := "012", jan := "4901", name := .vStr "A",
           qty := some 2, price := none, promo := "" }] := by
  refine ⟨rfl, by decide, by decide⟩

/-- C3 witness: the amended theorem applied to a concrete one-record
input with a non-null price. -/
theorem claim_C3_witness :
    create_matrix_csv_header
      [{ date := some ⟨2024, 5, 1⟩, dept := "012", jan := "4901", name := .vStr "A",
         qty := some 2, price := some 100, promo := "" }] =
      ["部門", "JAN", "商品名", "単価"] ++
        (pivotDates
          [{ date := some ⟨2024, 5, 1⟩, dept := "012", jan := "4901", name := .vStr "A",
             qty := some 2, price := some 100, promo := "" }]).map fmtDate ++
        ["合計数量", "合計金額", "販促"] :=
  (claim_C3_pivot_header
    [{ date := some ⟨2024, 5, 1⟩, dept := "012", jan := "4901", name := .vStr "A",
       qty := some 2, price := some 100, promo := "" }] (by decide)).1

/-- The NaN-skipping maximum fold dominates its accumulator and every
non-null element. -/
lemma maxFold_spec :
    ∀ (l : List (Option ℚ)) (acc : Option ℚ),
      (∀ x, acc = some x → ∃ m, List.foldl maxStep acc l = some m ∧ x ≤ m) ∧
      (∀ p, some p ∈ l → ∃ m, List.foldl maxStep acc l = some m ∧ p ≤ m) := by
  intro l
  induction l with
  | nil =>
    intro acc
    constructor
    · intro x hx
      exact ⟨x, by rw [List.foldl_nil, hx], le_refl x⟩
    · intro p hp
      cases hp
  | cons o l ih =>
    intro acc
    constructor
    · intro x hx
      rw [List.foldl_cons]
      cases o with
      | none =>
        have hstep : maxStep acc none = acc := rfl
        rw [hstep]
        exact (ih acc).1 x hx
      | some p =>
        subst hx
        have hstep : maxStep (some x) (some p) = some (max x p) := rfl
        rw [hstep]
        obtain ⟨m, hm, hle⟩ := (ih (some (max x p))).1 (max x p) rfl
        exact ⟨m, hm, le_trans (le_max_left x p) hle⟩
    · intro p hp
      rw [List.foldl_cons]
      rcases List.mem_cons.mp hp with h | h
      · subst h
        cases acc with
        | none =>
          have hstep : maxStep none (some p) = some p := rfl
          rw [hstep]
          exact (ih (some p)).1 p rfl
        | some m0 =>
          have hstep : maxStep (some m0) (some p) = some (max m0 p) := rfl
          rw [hstep]
          obtain ⟨m, hm, hle⟩ := (ih (some (max m0 p))).1 (max m0 p) rfl
          exact ⟨m, hm, le_trans (le_max_right m0 p) hle⟩
      · exact (ih (maxStep acc o)).2 p h

/-- The NaN-skipping maximum dominates every non-null element. -/
lemma maxNonNull_le {l : List (Option ℚ)} {p : ℚ} (h : some p ∈ l) :
    ∃ m, maxNonNull l = some m ∧ p ≤ m :=
  (maxFold_spec l none).2 p h

/-- Summing an if-redistribution over a duplicate-free key list that
contains the chosen key adds the extra term exactly once. -/
lemma sum_map_ite_add {β : Type} [DecidableEq β] (c : β) (x : ℚ) (h : β → ℚ) :
    ∀ keys : List β, keys.Nodup → c ∈ keys →
      (keys.map (fun k => if c = k then x + h k else h k)).sum = x + (keys.map h).sum := by
  intro keys
  induction keys with
  | nil =>
    intro _ hc
    cases hc
  | cons k0 rest ih =>
    intro hnd hc
    rw [List.map_cons, List.map_cons, List.sum_cons, List.sum_cons]
    rcases List.mem_cons.mp hc with h0 | h0
    · subst h0
      rw [if_pos rfl]
      have hnotin : c ∉ rest := (List.nodup_cons.mp hnd).1
      have hrest : (rest.map (fun k => if c = k then x + h k else h k)).sum =
          (rest.map h).sum := by
        congr 1
        apply List.map_congr_left
        intro a ha
        rw [if_neg]
        intro hca
        exact hnotin (hca ▸ ha)
      rw [hrest]
      ring
    · have hck0 : c ≠ k0 := by
        intro he
        exact (List.nodup_cons.mp hnd).1 (he ▸ h0)
      rw [if_neg hck0, ih (List.nodup_cons.mp hnd).2 h0]
      ring

/-- Partitioning a sum by a duplicate-free key list covering all the
elements: per-key filtered sums add up to the total sum. -/
lemma sum_filter_partition {α β : Type} [DecidableEq β] (f : α → β) (g : α → ℚ) :
    ∀ (l : List α) (keys : List β), keys.Nodup → (∀ a ∈ l, f a ∈ keys) →
      (keys.map (fun k => ((l.filter (fun a => f a = k)).map g).sum)).sum =
        (l.map g).sum := by
  intro l
  induction l with
  | nil =>
    intro keys _ _
    rw [List.map_nil, List.sum_nil]
    apply List.sum_eq_zero
    intro x hx
    obtain ⟨k, _, hk⟩ := List.mem_map.mp hx
    simpa using hk.symm
  | cons a l ih =>
    intro keys hnd hall
    have hfa : f a ∈ keys := hall a (List.mem_cons_self _ _)
    have hall2 : ∀ b ∈ l, f b ∈ keys := fun b hb => hall b (List.mem_cons_of_mem _ hb)
    have hstep : ∀ k, (((a :: l).filter (fun x => f x = k)).map g).sum =
        if f a = k then g a + ((l.filter (fun x => f x = k)).map g).sum
        else ((l.filter (fun x => f x = k)).map g).sum := by
      intro k
      by_cases hk : f a = k
      · rw [List.filter_cons_of_pos (by simp [hk]), List.map_cons, List.sum_cons, if_pos hk]
      · rw [List.filter_cons_of_neg (by simp [hk]), if_neg hk]
    calc (keys.map fun k => (((a :: l).filter (fun x => f x = k)).map g).sum).sum
        = (keys.map fun k =>
            if f a = k then g a + ((l.filter (fun x => f x = k)).map g).sum
            else ((l.filter (fun x => f x = k)).map g).sum).sum := by
          congr 1
          exact List.map_congr_left (fun k _ => hstep k)
      _ = g a + (keys.map fun k => ((l.filter (fun x => f x = k)).map g).sum).sum :=
          sum_map_ite_add (f a) (g a) _ keys hnd hfa
      _ = g a + (l.map g).sum := by rw [ih keys hnd hall2]
      _ = ((a :: l).map g).sum := by rw [List.map_cons, List.sum_cons]

/-- The two canonical records of end-to-end scenario 1 (transactional
rows 2024-05-01, dept 12, jan 4900000000001, qty 3 and 2, price 100). -/
def scenario1 : List Record :=
  [{ date := some ⟨2024, 5, 1⟩, dept := "012", jan := "4900000000001", name := .vStr "",
     qty := some 3, price := some 100, promo := "" },
   { date := some ⟨2024, 5, 1⟩, dept := "012", jan := "4900000000001", name := .vStr "",
     qty := some 2, price := some 100, promo := "" }]

/-- The expected summary row of scenario 1. -/
def scenario1Row : AggRow :=
  { jan := "4900000000001", dept := "012", name := .vStr "", price := some 100,
    totalQty := 5, totalAmount := 500, promo := "" }

/-- First record of the C2 counterexample: a null product name. -/
def c2a : Record :=
  { date := some ⟨2024, 5, 1⟩, dept := "001", jan := "1", name := .vNone,
    qty := some 1, price := some 1, promo := "" }

/-- Second record of the C2 counterexample: same jan, non-null name. -/
def c2b : Record :=
  { date := some ⟨2024, 5, 1⟩, dept := "001", jan := "1", name := .vStr "B",
    qty := some 1, price := some 1, promo := "" }

/-- C2 (amended): the summary aggregation groups records by jan; each
output row aggregates its jan-group (in original record order) with
department and promotion from the first record of the group, the
product name from the first record with a NON-NULL name (pandas
null-skipping "first", per the counterexample), unit price the maximum
observed non-null price, total quantity the sum of quantities, total
amount the sum of per-record quantity*price (not total-quantity times
the max price); the rows are ordered by descending total quantity; and
scenario 1 aggregates to totalQuantity 5, totalAmount 500. -/
theorem claim_C2_summary_aggregation :
    (∀ rs : List Record, ∀ g ∈ aggView rs,
      (∃ r ∈ rs, r.jan = g.jan) ∧
      g.dept = ((rs.filter (fun r => r.jan = g.jan)).head?.map Record.dept).getD "" ∧
      g.promo = ((rs.filter (fun r => r.jan = g.jan)).head?.map Record.promo).getD "" ∧
      g.name = firstNonNull ((rs.filter (fun r => r.jan = g.jan)).map Record.name) ∧
      g.totalQty = sumNonNull ((rs.filter (fun r => r.jan = g.jan)).map Record.qty) ∧
      g.totalAmount = sumNonNull ((rs.filter (fun r => r.jan = g.jan)).map recAmount) ∧
      g.price = maxNonNull ((rs.filter (fun r => r.jan = g.jan)).map Record.price) ∧
      (∀ r ∈ rs, r.jan = g.jan → ∀ p, r.price = some p →
        ∃ mp, g.price = some mp ∧ p ≤ mp)) ∧
    (∀ rs : List Record, (aggView rs).Sorted aggGe) ∧
    aggView scenario1 = [scenario1Row] := by
  refine ⟨?_, ?_, ?_⟩
  · intro rs g hg
    unfold aggView at hg
    rw [List.mem_insertionSort] at hg
    obtain ⟨j, hj, rfl⟩ := List.mem_map.mp hg
    have hjan : (aggGroup j (rs.filter (fun r => r.jan = j))).jan = j := rfl
    rw [hjan]
    refine ⟨?_, rfl, rfl, rfl, rfl, rfl, rfl, ?_⟩
    · obtain ⟨r, hr, hjr⟩ := List.mem_map.mp (List.mem_dedup.mp hj)
      exact ⟨r, hr, hjr⟩
    · intro r hr hjr p hp
      have hrg : r ∈ rs.filter (fun r => r.jan = j) :=
        List.mem_filter.mpr ⟨hr, by simp [hjr]⟩
      have hpm : some p ∈ (rs.filter (fun r => r.jan = j)).map Record.price :=
        List.mem_map.mpr ⟨r, hrg, hp⟩
      exact maxNonNull_le hpm
  · intro rs
    unfold aggView
    exact List.sorted_insertionSort _ _
  · unfold aggView
    have h1 : (scenario1.map Record.jan).dedup = ["4900000000001"] := by decide
    rw [h1, List.map_cons, List.map_nil]
    have h2 : scenario1.filter (fun r => r.jan = "4900000000001") = scenario1 := by decide
    rw [h2]
    have hq : sumNonNull (scenario1.map Record.qty) = 5 := by
      show (3 : ℚ) + (2 + 0) = 5
      norm_num
    have ha : sumNonNull (scenario1.map recAmount) = 500 := by
      show (3 * 100 : ℚ) + (2 * 100 + 0) = 500
      norm_num
    have hp : maxNonNull (scenario1.map Record.price) = some 100 := by
      show some (max 100 100) = some 100
      norm_num
    have h3 : aggGroup "4900000000001" scenario1 = scenario1Row := by
      unfold aggGroup
      rw [hq, ha, hp]
      decide
    rw [h3]
    simp

/-- C2 counterexample: two records with the same jan where the FIRST
record of the group has a null product name; the aggregated row takes
the name from the second record (pandas "first" skips nulls), not from
the first record in group order as the claim states. -/
theorem claim_C2_counterexample :
    (aggView [c2a, c2b]).map AggRow.name = [PVal.vStr "B"] ∧
      c2a.name = PVal.vNone ∧
      ([c2a, c2b].head?.map Record.name) = some PVal.vNone := by
  refine ⟨?_, rfl, rfl⟩
  unfold aggView
  have h1 : (([c2a, c2b].map Record.jan).dedup) = ["1"] := by decide
  rw [h1, List.map_cons, List.map_nil]
  have h2 : (aggGroup "1" ([c2a, c2b].filter (fun r => r.jan = "1"))).name =
      PVal.vStr "B" := by decide
  simp [List.insertionSort, List.orderedInsert, h2]

/-- C2 witness: the amended theorem applied to scenario 1, extracting
the total-quantity characterisation of its single output row. -/
theorem claim_C2_witness :
    scenario1Row.totalQty =
      sumNonNull ((scenario1.filter
        (fun r => r.jan = scenario1Row.jan)).map Record.qty) := by
  have hmem : scenario1Row ∈ aggView scenario1 := by
    rw [claim_C2_summary_aggregation.2.2]
    exact List.mem_singleton.mpr rfl
  exact (claim_C2_summary_aggregation.1 scenario1 scenario1Row hmem).2.2.2.2.1

/-- Two records for the same item (same jan) with different unit
prices, demonstrating the finer pivot grouping. -/
def demoTwoPrices : List Record :=
  [{ date := some ⟨2024, 5, 1⟩, dept := "012", jan := "4901", name := .vStr "A",
     qty := some 1, price := some 100, promo := "" },
   { date := some ⟨2024, 5, 1⟩, dept := "012", jan := "4901", name := .vStr "A",
     qty := some 1, price := some 200, promo := "" }]

/-- A single canonical record for the C7 witness. -/
def pivotDemoRec : Record :=
  { date := some ⟨2024, 5, 1⟩, dept := "012", jan := "4901", name := .vStr "A",
    qty := some 3, price := some 100, promo := "" }

/-- The pivot row produced for pivotDemoRec. -/
def pivotDemoRow : PivotRow :=
  { dept := "012", jan := "4901", name := .vStr "A", price := 100, promo := "",
    cells := [(⟨2024, 5, 1⟩, 3)], totalQty := 3, totalAmount := 3 * 100 }

/-- C7: the pivot export groups the surviving records by the five-level
key (department, jan, productName, unitPrice, promotionLabel); each
pivot row's total amount equals its total quantity (the row sum across
the date columns) times the group's unit price, and its total quantity
equals the sum of the quantities of its group's records; and the
grouping is strictly finer than the summary's jan-only grouping: two
records for the same item with different unit prices yield two pivot
rows but a single summary row. -/
theorem claim_C7_pivot_grouping :
    (∀ rs : List Record, ∀ p ∈ pivotRows rs,
      p.totalAmount = p.totalQty * p.price ∧
      p.totalQty = sumNonNull (((pivotSurvivors rs).filter
        (fun r => pivotKey r = (p.dept, p.jan, p.name, p.price, p.promo))).map Record.qty)) ∧
    ((pivotRows demoTwoPrices).length = 2 ∧ (aggView demoTwoPrices).length = 1) := by
  constructor
  · intro rs p hp
    unfold pivotRows at hp
    dsimp only at hp
    obtain ⟨k, hk, rfl⟩ := List.mem_map.mp hp
    refine ⟨rfl, ?_⟩
    dsimp only
    rw [show (k.1, k.2.1, k.2.2.1, k.2.2.2.1, k.2.2.2.2) = k from rfl]
    rw [List.map_map]
    have hnd : (pivotDates rs).Nodup := by
      unfold pivotDates
      exact ((List.perm_insertionSort _ _).nodup_iff).mpr (List.nodup_dedup _)
    have hall : ∀ r ∈ (pivotSurvivors rs).filter (fun r => pivotKey r = k),
        (r.date.getD ⟨0, 0, 0⟩ : Date) ∈ pivotDates rs := by
      intro r hr
      have hsurv : r ∈ pivotSurvivors rs := (List.mem_filter.mp hr).1
      have hside := (List.mem_filter.mp (by exact hsurv : r ∈ rs.filter _)).2
      simp only [decide_eq_true_eq] at hside
      obtain ⟨d0, hd0⟩ := Option.isSome_iff_exists.mp hside.1
      unfold pivotDates
      rw [List.mem_insertionSort, List.mem_dedup, List.mem_filterMap]
      exact ⟨r, hsurv, by rw [hd0]; rfl⟩
    have hfilters : ∀ d, ((pivotSurvivors rs).filter (fun r => pivotKey r = k)).filter
          (fun r => r.date = some d) =
        ((pivotSurvivors rs).filter (fun r => pivotKey r = k)).filter
          (fun r => (r.date.getD ⟨0, 0, 0⟩ : Date) = d) := by
      intro d
      apply List.filter_congr
      intro r hr
      have hsurv : r ∈ pivotSurvivors rs := (List.mem_filter.mp hr).1
      have hside := (List.mem_filter.mp (by exact hsurv : r ∈ rs.filter _)).2
      simp only [decide_eq_true_eq] at hside
      obtain ⟨d0, hd0⟩ := Option.isSome_iff_exists.mp hside.1
      rw [hd0]
      simp
    have hpart := sum_filter_partition (fun r : Record => (r.date.getD ⟨0, 0, 0⟩ : Date))
      (fun r : Record => r.qty.getD 0)
      ((pivotSurvivors rs).filter (fun r => pivotKey r = k)) (pivotDates rs) hnd hall
    calc ((pivotDates rs).map ((fun c : Date × ℚ => c.2) ∘ fun d =>
            (d, sumNonNull ((((pivotSurvivors rs).filter (fun r => pivotKey r = k)).filter
              (fun r => r.date = some d)).map Record.qty)))).sum
        = ((pivotDates rs).map (fun d =>
            (((((pivotSurvivors rs).filter (fun r => pivotKey r = k)).filter
              (fun r => (r.date.getD ⟨0, 0, 0⟩ : Date) = d)).map
                (fun r => r.qty.getD 0)).sum))).sum := by
          congr 1
          apply List.map_congr_left
          intro d _
          show sumNonNull _ = _
          rw [hfilters d]
          unfold sumNonNull
          rw [List.map_map]
          rfl
      _ = ((((pivotSurvivors rs).filter (fun r => pivotKey r = k)).map
            (fun r => r.qty.getD 0)).sum) := hpart
      _ = sumNonNull (((pivotSurvivors rs).filter (fun r => pivotKey r = k)).map
            Record.qty) := by
          unfold sumNonNull
          rw [List.map_map]
          rfl
  · constructor
    · decide
    · decide

/-- C7 witness: the theorem applied to a one-record input and its pivot
row. -/
theorem claim_C7_witness :
    pivotDemoRow.totalAmount = pivotDemoRow.totalQty * pivotDemoRow.price ∧
    pivotDemoRow.totalQty = sumNonNull (((pivotSurvivors [pivotDemoRec]).filter
      (fun r => pivotKey r = (pivotDemoRow.dept, pivotDemoRow.jan, pivotDemoRow.name,
        pivotDemoRow.price, pivotDemoRow.promo))).map Record.qty) :=
  claim_C7_pivot_grouping.1 [pivotDemoRec] pivotDemoRow
    (by
      have h : pivotRows [pivotDemoRec] = [pivotDemoRow] := by
        unfold pivotRows pivotDates pivotSurvivors pivotDemoRec pivotDemoRow
        simp [pivotKey, sumNonNull, List.insertionSort, List.orderedInsert]
      rw [h]
      exact List.mem_singleton.mpr rfl)

